import Mathlib

/-!
Shallow embedding of `src/lib/filters/filter.ts` (nestjs-graphql-tools filter
generation engine), together with theorems settling the specification claims.

The TypeScript source synthesizes GraphQL input types at schema-build time:
* `generateFilterPropertyType` builds, per field, a predicate type with one
  optional attribute per operation of `OperationQuery`;
* `generateFilterInputType` merges the fields of one or more entity classes
  into a filter input type, skipping relation-valued fields;
* `getFilterFullInputType` wraps that type with `and` / `or` / `_name_`;
* `Filter` registers the wrapped type as a query argument and records
  custom-expression field metadata.

Runtime class objects are modelled as structures carrying a unique `uid`
(object identity) and the decorated attribute list; the three process-wide
`Map`s (`propertyTypes`, `filterTypes`, `filterFullTypes`) are modelled as
association lists threaded through a `GenState`.
-/

namespace GraphqlTools

/-- A GraphQL type value as returned by a field's `typeFn` (`ReturnTypeFunc`):
either a named type (scalar such as `String`, `Int`, or a declared entity
class looked up by name), the JS `Boolean` constructor, or a list type
`[T]` as built at `filter.ts:67`. -/
inductive GqlType where
  | named (n : String)
  | booleanT
  | listOf (t : GqlType)
deriving DecidableEq, Repr

/-- `OperationQuery` enum, `filter.ts:7-21`, in declaration order (the order
`Object.keys` iterates). `inOp` stands for the enum member `in` (a Lean
keyword). -/
inductive OperationQuery where
  | eq | neq | gt | gte | lt | lte
  | inOp | notin | like | notlike
  | between | notbetween | null
deriving DecidableEq, Repr

/-- The string value of each `OperationQuery` enum member. -/
def OperationQuery.str : OperationQuery → String
  | .eq => "eq" | .neq => "neq" | .gt => "gt" | .gte => "gte"
  | .lt => "lt" | .lte => "lte" | .inOp => "in" | .notin => "notin"
  | .like => "like" | .notlike => "notlike" | .between => "between"
  | .notbetween => "notbetween" | .null => "null"

/-- `Object.keys(OperationQuery)` — all thirteen members in declaration
order, `filter.ts:63`. -/
def allOperations : List OperationQuery :=
  [.eq, .neq, .gt, .gte, .lt, .lte, .inOp, .notin, .like, .notlike,
   .between, .notbetween, .null]

/-- `arrayLikeOperations`, `filter.ts:23`: the set
`new Set([OperationQuery.between, OperationQuery.notbetween, OperationQuery.in])`.
Note the source does NOT include `notin` here. -/
def arrayLikeOperations (op : OperationQuery) : Bool :=
  match op with
  | .between | .notbetween | .inOp => true
  | _ => false

/-- `InputMapPrefixes`, `filter.ts:25-28`. -/
def InputMapPrefixes.PropertyFilterType : String := "PropertyFilterType"

/-- `InputMapPrefixes`, `filter.ts:25-28`. -/
def InputMapPrefixes.FilterInputType : String := "FilterInputType"

/-- Modelled from the spec: the sentinel constant
`FILTER_DECORATOR_NAME_METADATA_KEY` lives in `src/lib/filters/constants.ts`,
which is not under `src/`; per the spec it is a fixed reserved constant used
as the default value of the `_name_` discriminator attribute. Its concrete
string content is irrelevant to every claim; only its fixedness matters. -/
def FILTER_DECORATOR_NAME_METADATA_KEY : String :=
  "FilterDecoratorNameSentinel"

/-- The attribute name used for an operation, `filter.ts:74`:
`FILTER_OPERATION_PREFIX ? prefix + operationName : operationName`.
Modelled from the spec: `FILTER_OPERATION_PREFIX` is declared in
`src/lib/filters/constants.ts`, not under `src/`; spec section 6 states the
generated predicate type exposes "one optional attribute per operation
identifier", i.e. the operation prefix is empty and the attribute name is
the operation identifier itself. -/
def opAttrName (op : OperationQuery) : String := op.str

/-- The value type of the attribute generated for `op` over a field whose
`typeFn()` returns `t` — the arrow body at `filter.ts:65-73`. -/
def opValueType (op : OperationQuery) (t : GqlType) : GqlType :=
  if arrayLikeOperations op then GqlType.listOf t
  else if op = OperationQuery.null then GqlType.booleanT
  else t

/-- One attribute of a generated property-filter class: the `@Field`
decoration applied at `filter.ts:65-74` (always with `nullable: true`). -/
structure PropAttr where
  name : String
  typ : GqlType
  nullable : Bool
deriving DecidableEq, Repr

/-- The synthesized per-field predicate class `PropertyFilter`
(`filter.ts:60`): `uid` models JS object identity, `name` the value
installed by `Object.defineProperty` (`filter.ts:77-79`, equal to the cache
key), `attrs` the decorated attributes. -/
structure PropertyFilter where
  uid : Nat
  name : String
  attrs : List PropAttr
deriving DecidableEq, Repr

/-- The thirteen attributes generated by the `Object.keys(...).forEach`
loop at `filter.ts:63-75` for a field of value type `t`. -/
def opAttrsFor (t : GqlType) : List PropAttr :=
  allOperations.map (fun op => ⟨opAttrName op, opValueType op t, true⟩)

/-- One attribute of a generated filter input class: the `@Field` decoration
applied at `filter.ts:139` (always `nullable: true`, typed by the generated
property-filter class). -/
structure FilterAttr where
  name : String
  ptype : PropertyFilter
  nullable : Bool
deriving DecidableEq, Repr

/-- The synthesized entity filter class `PartialObjectType`
(`filter.ts:92`). -/
structure PartialObjectType where
  uid : Nat
  name : String
  attrs : List FilterAttr
deriving DecidableEq, Repr

/-- Attribute value types appearing on the wrapper class `EntityWhereInput`
(`filter.ts:186-192`): inherited field-predicate attributes, `and`/`or`
lists of the entity filter type, and the `_name_` string attribute with its
default value. -/
inductive WhereFieldType where
  | predicate (p : PropertyFilter)
  | listOfFilter (f : PartialObjectType)
  | stringWithDefault (v : String)
deriving DecidableEq, Repr

/-- One attribute of the wrapper class. -/
structure WhereAttr where
  name : String
  typ : WhereFieldType
  nullable : Bool
deriving DecidableEq, Repr

/-- The synthesized wrapper class `EntityWhereInput` (`filter.ts:186`). -/
structure EntityWhereInput where
  uid : Nat
  name : String
  attrs : List WhereAttr
deriving DecidableEq, Repr

/-- One field record as stored in the resolved `properties` list of
`generateFilterInputType` (`filter.ts:101-130`): `typ` is the value of
`typeFn()`, `sqlExp` the `qlExp` carried over from a custom filter field
(`filter.ts:106`), absent for registry-resolved fields. -/
structure FieldDef where
  name : String
  typ : GqlType
  sqlExp : Option String := none
deriving DecidableEq, Repr

/-- Modelled from the spec: one custom filter field as declared through
`src/lib/filters/filter.input-type.ts` (not under `src/`):
`{name, typeFn, options.sqlExp}` — a name, a value-type producer and a raw
sql expression string. -/
structure FilterInputTypeFieldMetadata where
  name : String
  typ : GqlType
  sqlExp : String
deriving DecidableEq, Repr

/-- Modelled from the spec: one entity class (`BaseEntity`) together with
what the external collaborators report about it. `custom` models both the
reflect-metadata read at `filter.ts:104` and `prototype.filterInputType` /
`prototype.getFields()` read at `filter.ts:208-209` (the custom-filter
declaration mechanism of `filter.input-type.ts`, not under `src/`, sets
all of them from the same field list). `props` models the external
metadata registry's compiled `classMetadata.properties`
(`filter.ts:110-123`; `none` = not yet initialized). `ext` models the
`__extension__` parent-class name (`filter.ts:115`). -/
structure EntityDecl where
  name : String
  custom : Option (List FilterInputTypeFieldMetadata) := none
  props : Option (List FieldDef) := none
  ext : Option String := none
deriving DecidableEq, Repr

/-- `CustomFilterFieldDefinition`, `filter.ts:37-43`, as accumulated by the
`Filter` decorator (`filter.ts:207-219`). -/
structure CustomFilterFieldDefinition where
  name : String
  typ : GqlType
  sqlExp : String
deriving DecidableEq, Repr

/-- `Map.get`: first entry with the given key. -/
def mapGet {α : Type} (m : List (String × α)) (k : String) : Option α :=
  match m with
  | [] => none
  | (k', v) :: rest => if k' = k then some v else mapGet rest k

/-- `Map.set`: replace the entry with the given key in place, or append. -/
def mapSet {α : Type} (m : List (String × α)) (k : String) (v : α) :
    List (String × α) :=
  match m with
  | [] => [(k, v)]
  | (k', v') :: rest =>
      if k' = k then (k, v) :: rest else (k', v') :: mapSet rest k v

/-- The three process-wide caches (`filter.ts:50-52`) plus a counter used
to hand out object identities for freshly constructed classes. -/
structure GenState where
  propertyTypes : List (String × PropertyFilter)
  filterTypes : List (String × PartialObjectType)
  filterFullTypes : List (String × EntityWhereInput)
  nextId : Nat
deriving DecidableEq, Repr

/-- The empty caches at process start. -/
def initState : GenState := ⟨[], [], [], 0⟩

instance {ε α : Type} [DecidableEq ε] [DecidableEq α] :
    DecidableEq (Except ε α) := fun
  | .ok a, .ok b =>
      match decEq a b with
      | isTrue h => isTrue (h ▸ rfl)
      | isFalse h => isFalse (fun hc => h (Except.ok.inj hc))
  | .ok _, .error _ => isFalse (fun h => Except.noConfusion h)
  | .error _, .ok _ => isFalse (fun h => Except.noConfusion h)
  | .error e, .error f =>
      match decEq e f with
      | isTrue h => isTrue (h ▸ rfl)
      | isFalse h => isFalse (fun hc => h (Except.error.inj hc))

/-- `generateFilterPropertyType`, `filter.ts:54-83`. -/
def generateFilterPropertyType (field : FieldDef) (parentName : String)
    (s : GenState) : PropertyFilter × GenState :=
  let key := field.name ++ parentName ++ InputMapPrefixes.PropertyFilterType
  match mapGet s.propertyTypes key with
  | some propType => (propType, s)
  | none =>
      let propertyFilter : PropertyFilter := ⟨s.nextId, key, opAttrsFor field.typ⟩
      (propertyFilter,
       { s with propertyTypes := mapSet s.propertyTypes key propertyFilter,
                nextId := s.nextId + 1 })

/-- All declared entities known to the external metadata registry
(`TypeMetadataStorage.getObjectTypesMetadata`, `filter.ts:114`), also used
for the relation check at `filter.ts:133`. -/
def Env : Type := List EntityDecl

/-- `TypeMetadataStorage.getObjectTypeMetadataByTarget(field.typeFn())`
truthiness, `filter.ts:133`: the value of `typeFn()` is itself a declared
entity class. Only a named type can be a declared class; the JS `Boolean`
constructor and array literals carry no object-type metadata. -/
def isDeclaredEntity (env : Env) (t : GqlType) : Bool :=
  match t with
  | GqlType.named n => (List.any env (fun e => e.name = n))
  | _ => false

/-- Errors raised by generation. `uninitializedEntity` models the
`throw new Error(...)` at `filter.ts:124` (the spec's
`UninitializedEntityError`), carrying the offending DTO name. -/
inductive GenError where
  | uninitializedEntity (dtoName : String)
deriving DecidableEq, Repr

/-- The thrown error's message string, `filter.ts:124`. -/
def GenError.message : GenError → String
  | .uninitializedEntity n => "DTO " ++ n ++ " hasn\x27t been initialized yet"

/-- Field resolution for one entity of the `classes` loop,
`filter.ts:103-130`: custom filter fields are used directly
(`filter.ts:105-107`); otherwise the registry's compiled properties are
used, prepended with the `__extension__` parent's properties
(`filter.ts:115-128`), failing when the entity's own properties are not
resolvable (`filter.ts:123-125`). -/
def resolveEntityProps (env : Env) (e : EntityDecl) :
    Except GenError (List FieldDef) :=
  match e.custom with
  | some fields =>
      Except.ok (fields.map (fun x =>
        { name := x.name, typ := x.typ, sqlExp := some x.sqlExp }))
  | none =>
      let inheritedProps : List FieldDef :=
        match e.ext with
        | some parentName =>
            match List.find? (fun d => d.name = parentName) env with
            | some parentDecl => parentDecl.props.getD []
            | none => []
        | none => []
      match e.props with
      | some ps => Except.ok (inheritedProps ++ ps)
      | none => Except.error (GenError.uninitializedEntity e.name)

/-- The full `properties` accumulation loop over `classes`,
`filter.ts:101-130`. -/
def resolveAllProps (env : Env) (classes : List EntityDecl) :
    Except GenError (List FieldDef) :=
  match classes with
  | [] => Except.ok []
  | c :: rest => do
      let ps ← resolveEntityProps env c
      let restPs ← resolveAllProps env rest
      pure (ps ++ restPs)

/-- Modelled from the spec: applying the external `@Field` decorator
(from `@nestjs/graphql`, an out-of-scope collaborator) twice with the same
property name registers the name once, the later registration overriding
the earlier ("last write per field name wins" — spec sections 4.3 and 8);
a new name is appended in declaration order. -/
def setField (attrs : List FilterAttr) (a : FilterAttr) : List FilterAttr :=
  match attrs with
  | [] => [a]
  | b :: rest => if b.name = a.name then a :: rest else b :: setField rest a

/-- The field loop of `generateFilterInputType`, `filter.ts:132-148`:
relation-valued fields are skipped; every other field is decorated onto the
class as a nullable attribute typed by its generated property filter. -/
def processFields (env : Env) (parentName : String) :
    List FieldDef → GenState → List FilterAttr → List FilterAttr × GenState
  | [], s, acc => (acc, s)
  | f :: rest, s, acc =>
      if isDeclaredEntity env f.typ then
        processFields env parentName rest s acc
      else
        let r := generateFilterPropertyType f parentName s
        processFields env parentName rest r.2 (setField acc ⟨f.name, r.1, true⟩)

/-- `classes.map(x => x.name).join('')`, `filter.ts:86`. -/
def concatNames (classes : List EntityDecl) : String :=
  String.join (classes.map (fun c => c.name))

/-- The `filterTypes` cache key, `filter.ts:87`. -/
def filterTypeKey (classes : List EntityDecl) : String :=
  concatNames classes ++ InputMapPrefixes.PropertyFilterType

/-- The empty `PartialObjectType` class as first constructed at
`filter.ts:92-97`, before any field is resolved. -/
def placeholderFor (classes : List EntityDecl) (s : GenState) :
    PartialObjectType :=
  ⟨s.nextId, filterTypeKey classes, []⟩

/-- The cache state right after `filterTypes.set(key, PartialObjectType)`
(`filter.ts:99`) and before the `properties` loop. -/
def afterPlaceholder (classes : List EntityDecl) (s : GenState) : GenState :=
  { s with
    filterTypes :=
      mapSet s.filterTypes (filterTypeKey classes) (placeholderFor classes s),
    nextId := s.nextId + 1 }

/-- `generateFilterInputType`, `filter.ts:85-151`. The placeholder class is
cached before fields are resolved (`filter.ts:99`); since the TypeScript
class object is mutated in place by the later `@Field` decorations, the
final cache update models the populated object replacing (being) the cached
placeholder, with the same identity (`uid`). -/
def generateFilterInputType (env : Env) (classes : List EntityDecl)
    (s : GenState) : Except GenError (PartialObjectType × GenState) :=
  let key := filterTypeKey classes
  match mapGet s.filterTypes key with
  | some t => Except.ok (t, s)
  | none =>
      let s1 := afterPlaceholder classes s
      match resolveAllProps env classes with
      | Except.error e => Except.error e
      | Except.ok props =>
          let r := processFields env (concatNames classes) props s1 []
          let final : PartialObjectType :=
            ⟨(placeholderFor classes s).uid, key, r.1⟩
          Except.ok (final,
            { r.2 with filterTypes := mapSet r.2.filterTypes key final })

/-- The `filterFullTypes` cache key, `filter.ts:180`. -/
def fullTypeKey (classes : List EntityDecl) : String :=
  "where" ++ concatNames classes ++ "Input"

/-- The wrapper class body, `filter.ts:185-193`: `EntityWhereInput extends
FilterInputType` inherits every attribute of the entity filter type and
declares `_name_` (a string attribute whose default value is the reserved
sentinel, not nullable in its `@Field` options), `and` and `or` (nullable
lists of the entity filter type). Modelled from the spec: that extending an
abstract input type exposes all of the parent's attributes is behaviour of
the external `@nestjs/graphql` collaborator (spec section 4.4). -/
def whereAttrsFor (fit : PartialObjectType) : List WhereAttr :=
  fit.attrs.map (fun a => ⟨a.name, WhereFieldType.predicate a.ptype, a.nullable⟩)
    ++ [⟨"_name_",
          WhereFieldType.stringWithDefault FILTER_DECORATOR_NAME_METADATA_KEY,
          false⟩,
        ⟨"and", WhereFieldType.listOfFilter fit, true⟩,
        ⟨"or", WhereFieldType.listOfFilter fit, true⟩]

/-- `getFilterFullInputType`, `filter.ts:176-196`. -/
def getFilterFullInputType (env : Env) (classes : List EntityDecl)
    (s : GenState) : Except GenError (EntityWhereInput × GenState) :=
  let key := fullTypeKey classes
  match mapGet s.filterFullTypes key with
  | some t => Except.ok (t, s)
  | none =>
      match generateFilterInputType env classes s with
      | Except.error e => Except.error e
      | Except.ok (fit, s1) =>
          let entityWhereInput : EntityWhereInput :=
            ⟨s1.nextId, key, whereAttrsFor fit⟩
          Except.ok (entityWhereInput,
            { s1 with
              filterFullTypes :=
                mapSet s1.filterFullTypes key entityWhereInput,
              nextId := s1.nextId + 1 })

/-- The caller-supplied entity reference of the `Filter` decorator,
`filter.ts:198`: `baseEntity()` returns a single class or an array;
`filter.ts:200-204` normalizes it to an array. -/
inductive EntityRef where
  | single (e : EntityDecl)
  | multiple (es : List EntityDecl)
deriving DecidableEq, Repr

/-- The normalization at `filter.ts:200-204`. -/
def entityRefToList : EntityRef → List EntityDecl
  | .single e => [e]
  | .multiple es => es

/-- `IFilterDecoratorParams`, `filter.ts:45-47`. -/
structure IFilterDecoratorParams where
  name : Option String := none
deriving DecidableEq, Repr

/-- The `Args` options the decorator registers, `filter.ts:223-228`:
argument name, nullability, the default value `{}` and the argument's
type (the root filter type). -/
structure ArgsOptions where
  name : String
  nullable : Bool
  defaultValueEmptyObject : Bool
  argType : EntityWhereInput
deriving DecidableEq, Repr

/-- The observable effect of applying the decorator returned by `Filter`
to a parameter, `filter.ts:221-228`: the custom-field metadata defined
under `FILTER_DECORATOR_CUSTOM_FIELDS_METADATA_KEY` on the target property,
and the registered `Args` options. -/
structure ParamRegistration where
  customFieldsMeta : List CustomFilterFieldDefinition
  args : ArgsOptions
deriving DecidableEq, Repr

/-- `Filter`, `filter.ts:198-230`. The `customFields` reduce at
`filter.ts:207-219` reads each entity's custom filter declaration
(`prototype.filterInputType` / `prototype.getFields()`, modelled by
`EntityDecl.custom`). The argument name is `options?.name || 'where'`
(so an empty string also falls back to `"where"`). -/
def Filter (env : Env) (baseEntity : EntityRef)
    (options : Option IFilterDecoratorParams) (s : GenState) :
    Except GenError (ParamRegistration × GenState) :=
  let typeFunctions := entityRefToList baseEntity
  match getFilterFullInputType env typeFunctions s with
  | Except.error e => Except.error e
  | Except.ok (filterFullType, s1) =>
      let customFields : List CustomFilterFieldDefinition :=
        typeFunctions.foldl (fun acc x =>
          match x.custom with
          | some fields =>
              acc ++ fields.map (fun f =>
                ({ name := f.name, typ := f.typ, sqlExp := f.sqlExp } :
                  CustomFilterFieldDefinition))
          | none => acc) []
      let argName : String :=
        match options with
        | some o =>
            match o.name with
            | some n => if n = "" then "where" else n
            | none => "where"
        | none => "where"
      Except.ok
        ({ customFieldsMeta := customFields,
           args := { name := argName, nullable := true,
                     defaultValueEmptyObject := true,
                     argType := filterFullType } }, s1)

/-! ### Concrete scenario declarations used by witnesses and
counterexamples -/

/-- A column-backed string field `title`, as in the spec's `Task` scenario. -/
def titleField : FieldDef := ⟨"title", .named "String", none⟩

/-- Field `x` of scalar type `String` (first declaration of the duplicate
scenario). -/
def f1x : FieldDef := ⟨"x", .named "String", none⟩

/-- Field `x` of scalar type `Boolean` (second declaration of the duplicate
scenario). -/
def f2x : FieldDef := ⟨"x", GqlType.booleanT, none⟩

/-- The property filter generated fresh for `f1x` under group `G`. -/
def pX : PropertyFilter := ⟨0, "xGPropertyFilterType", opAttrsFor (.named "String")⟩

/-- The cache state after generating `pX`. -/
def sX : GenState := ⟨[("xGPropertyFilterType", pX)], [], [], 1⟩

/-- Entity `A` with no fields. -/
def entA : EntityDecl := ⟨"A", none, some [], none⟩

/-- Entity `B` with no fields. -/
def entB : EntityDecl := ⟨"B", none, some [], none⟩

/-- The filter type generated for `[A, B]`. -/
def tAB : PartialObjectType := ⟨0, "ABPropertyFilterType", []⟩

/-- State after generating `tAB`. -/
def sAB : GenState := ⟨[], [("ABPropertyFilterType", tAB)], [], 1⟩

/-- The filter type generated for `[B, A]` after `[A, B]`. -/
def tBA : PartialObjectType := ⟨1, "BAPropertyFilterType", []⟩

/-- State after generating `tAB` then `tBA`. -/
def sBA : GenState :=
  ⟨[], [("ABPropertyFilterType", tAB), ("BAPropertyFilterType", tBA)], [], 2⟩

/-- Entity named `ab`: its name is a prefix-period of `abab`, so entity-name
concatenation does not distinguish `[ab, abab]` from `[abab, ab]`. -/
def entAb : EntityDecl := ⟨"ab", none, some [], none⟩

/-- Entity named `abab`. -/
def entAbab : EntityDecl := ⟨"abab", none, some [], none⟩

/-- The filter type generated for `[ab, abab]` (and returned again for
`[abab, ab]`). -/
def tConc : PartialObjectType := ⟨0, "abababPropertyFilterType", []⟩

/-- State after generating `tConc`. -/
def sConc : GenState := ⟨[], [("abababPropertyFilterType", tConc)], [], 1⟩

/-- Entity `A` declaring `x: String`. -/
def entAx : EntityDecl := ⟨"A", none, some [⟨"x", .named "String", none⟩], none⟩

/-- Entity `B` declaring `x: Boolean`. -/
def entBx : EntityDecl := ⟨"B", none, some [⟨"x", GqlType.booleanT, none⟩], none⟩

/-- Entity `A` declaring a single field `x` of a parametric named scalar. -/
def entAfield (t : GqlType) : EntityDecl := ⟨"A", none, some [⟨"x", t, none⟩], none⟩

/-- Entity `B` declaring a single field `x` of a parametric named scalar. -/
def entBfield (t : GqlType) : EntityDecl := ⟨"B", none, some [⟨"x", t, none⟩], none⟩

/-- A registry in which `Role` is a declared entity type. -/
def roleEnv : Env := [⟨"Role", none, some [], none⟩]

/-- Entity `P` with a relation-valued field `role: Role` and a scalar field
`id: Int`. -/
def entWithRel : EntityDecl :=
  ⟨"P", none, some [⟨"role", .named "Role", none⟩, ⟨"id", .named "Int", none⟩], none⟩

/-- The property filter generated for `P.id`. -/
def ptId : PropertyFilter := ⟨1, "idPPropertyFilterType", opAttrsFor (.named "Int")⟩

/-- The filter type generated for `[P]`: only `id`, no `role` attribute. -/
def tP : PartialObjectType := ⟨0, "PPropertyFilterType", [⟨"id", ptId, true⟩]⟩

/-- State after generating `tP`. -/
def sP : GenState :=
  ⟨[("idPPropertyFilterType", ptId)], [("PPropertyFilterType", tP)], [], 2⟩

/-- An entity whose metadata has not finished compiling: no custom fields,
no resolvable properties. -/
def uninitEnt : EntityDecl := ⟨"Task", none, none, none⟩

/-- Entity `E` with no fields, used for the wrapper and registration
witnesses. -/
def emptyEnt : EntityDecl := ⟨"E", none, some [], none⟩

/-- The entity filter type generated for `[E]`. -/
def fitE : PartialObjectType := ⟨0, "EPropertyFilterType", []⟩

/-- State after generating `fitE` alone. -/
def s1E : GenState := ⟨[], [("EPropertyFilterType", fitE)], [], 1⟩

/-- The root filter type generated for `[E]`. -/
def ftE : EntityWhereInput := ⟨1, "whereEInput", whereAttrsFor fitE⟩

/-- State after generating `ftE`. -/
def s2E : GenState :=
  ⟨[], [("EPropertyFilterType", fitE)], [("whereEInput", ftE)], 2⟩

/-- Entity `User` declaring the custom-expression filter field `fullName`
backed by `concat(fname,' ',lname)`. -/
def userEntity : EntityDecl :=
  ⟨"User", some [⟨"fullName", .named "String", "concat(fname,\x27 \x27,lname)"⟩],
   none, none⟩

/-- Entity `T` with a column-backed string field `title`. -/
def titleEntity : EntityDecl :=
  ⟨"T", none, some [⟨"title", .named "String", none⟩], none⟩

/-- The attribute list of a successfully generated filter type (empty on
error). -/
def genResultAttrs (r : Except GenError (PartialObjectType × GenState)) :
    List FilterAttr :=
  match r with
  | .ok (t, _) => t.attrs
  | .error _ => []

/-- The operation-attribute list of the first field attribute of a
generated filter type. -/
def firstPredicateAttrs (r : Except GenError (PartialObjectType × GenState)) :
    Option (List PropAttr) :=
  match r with
  | .ok (t, _) => (t.attrs.head?).map (fun a => a.ptype.attrs)
  | .error _ => none

/-- The sql expressions recorded in the custom-field metadata of a
registration. -/
def registeredSqlExps (r : Except GenError (ParamRegistration × GenState)) :
    List String :=
  match r with
  | .ok (p, _) => p.customFieldsMeta.map (fun c => c.sqlExp)
  | .error _ => []

/-! ### Cache-map lemmas -/

theorem mapGet_mapSet_self {α : Type} (m : List (String × α)) (k : String)
    (v : α) : mapGet (mapSet m k v) k = some v := by
  induction m with
  | nil => simp [mapGet, mapSet]
  | cons p rest ih =>
      by_cases h : p.1 = k
      · simp [mapGet, mapSet, h]
      · simp [mapGet, mapSet, h, ih]

theorem mapGet_mapSet_ne {α : Type} (m : List (String × α)) (k k' : String)
    (v : α) (h : k ≠ k') : mapGet (mapSet m k v) k' = mapGet m k' := by
  induction m with
  | nil => simp [mapGet, mapSet, h]
  | cons p rest ih =>
      by_cases hp : p.1 = k
      · simp [mapGet, mapSet, hp, h]
      · simp [mapGet, mapSet, hp, ih]

theorem mapSet_mapSet_self {α : Type} (m : List (String × α)) (k : String)
    (a b : α) : mapSet (mapSet m k a) k b = mapSet m k b := by
  induction m with
  | nil => simp [mapSet]
  | cons p rest ih =>
      by_cases hp : p.1 = k
      · simp [mapSet, hp]
      · simp [mapSet, hp, ih]

/-! ### State-preservation lemmas -/

/-- `generateFilterPropertyType` only touches the `propertyTypes` cache and
the identity counter. -/
theorem generateFilterPropertyType_filterTypes (f : FieldDef)
    (pn : String) (s : GenState) :
    ((generateFilterPropertyType f pn s).2).filterTypes = s.filterTypes := by
  cases h : mapGet s.propertyTypes
      (f.name ++ pn ++ InputMapPrefixes.PropertyFilterType) <;>
    simp [generateFilterPropertyType, h]

/-- The field loop only touches the `propertyTypes` cache and the identity
counter. -/
theorem processFields_filterTypes (env : Env) (pn : String)
    (props : List FieldDef) (s : GenState) (acc : List FilterAttr) :
    ((processFields env pn props s acc).2).filterTypes = s.filterTypes := by
  induction props generalizing s acc with
  | nil => rfl
  | cons f rest ih =>
      unfold processFields
      by_cases h : isDeclaredEntity env f.typ
      · simp [h, ih]
      · simp [h, ih, generateFilterPropertyType_filterTypes]

/-! ### Cache-hit and fresh-generation lemmas -/

/-- A cache hit returns the cached object with the state unchanged,
`filter.ts:88-90`. -/
theorem generateFilterInputType_hit (env : Env) (classes : List EntityDecl)
    (s : GenState) (t : PartialObjectType)
    (h : mapGet s.filterTypes (filterTypeKey classes) = some t) :
    generateFilterInputType env classes s = Except.ok (t, s) := by
  unfold generateFilterInputType
  simp [h]

/-- A successful fresh generation names the class after the cache key,
gives it the next fresh identity, and leaves the `filterTypes` cache equal
to the original cache with the populated class stored under the key. -/
theorem generateFilterInputType_fresh (env : Env) (classes : List EntityDecl)
    (s : GenState) (t : PartialObjectType) (s' : GenState)
    (hfresh : mapGet s.filterTypes (filterTypeKey classes) = none)
    (hok : generateFilterInputType env classes s = Except.ok (t, s')) :
    t.name = filterTypeKey classes ∧ t.uid = s.nextId ∧
      s'.filterTypes = mapSet s.filterTypes (filterTypeKey classes) t := by
  cases hr : resolveAllProps env classes with
  | error e =>
      simp [generateFilterInputType, hfresh, hr] at hok
  | ok props =>
      simp only [generateFilterInputType, hfresh, hr, Except.ok.injEq,
        Prod.mk.injEq] at hok
      obtain ⟨ht, hs⟩ := hok
      subst ht
      refine ⟨rfl, rfl, ?_⟩
      rw [← hs]
      simp only [processFields_filterTypes]
      unfold afterPlaceholder
      simp [mapSet_mapSet_self]

/-! ### C1 — operation arity rule -/

/-- C1 counterexample: the claim says the `notin` (not-in-set) attribute's
value type is list-of-scalar, but for a fresh string field the generated
`notin` attribute has the field's scalar value type: `arrayLikeOperations`
at `filter.ts:23` does not contain `OperationQuery.notin`. -/
theorem notin_attribute_is_scalar :
    (((generateFilterPropertyType titleField "Task" initState).1).attrs.find?
        (fun a => a.name == "notin"))
      = some ⟨"notin", GqlType.named "String", true⟩
    ∧ GqlType.named "String" ≠ GqlType.listOf (GqlType.named "String") := by
  decide

/-- C1 (amended): for every field declaration generated fresh, the
field-predicate type has exactly one optional (nullable) attribute per
operation, named by the operation identifier, whose value type is
list-of-scalar for `in`, `between` and `notbetween`, boolean for `null`,
and the field's scalar value type for all other operations — including
`notin`. -/
theorem generateFilterPropertyType_arity (f : FieldDef) (pn : String)
    (s : GenState)
    (hfresh : mapGet s.propertyTypes
      (f.name ++ pn ++ InputMapPrefixes.PropertyFilterType) = none) :
    ((generateFilterPropertyType f pn s).1).attrs =
      [⟨"eq", f.typ, true⟩, ⟨"neq", f.typ, true⟩, ⟨"gt", f.typ, true⟩,
       ⟨"gte", f.typ, true⟩, ⟨"lt", f.typ, true⟩, ⟨"lte", f.typ, true⟩,
       ⟨"in", GqlType.listOf f.typ, true⟩, ⟨"notin", f.typ, true⟩,
       ⟨"like", f.typ, true⟩, ⟨"notlike", f.typ, true⟩,
       ⟨"between", GqlType.listOf f.typ, true⟩,
       ⟨"notbetween", GqlType.listOf f.typ, true⟩,
       ⟨"null", GqlType.booleanT, true⟩] := by
  simp [generateFilterPropertyType, hfresh, opAttrsFor, allOperations,
    opAttrName, opValueType, arrayLikeOperations, OperationQuery.str]

/-- C1 witness: the arity theorem applied to the string field `title` of
group `Task` on the empty caches. -/
theorem generateFilterPropertyType_arity_witness :
    ((generateFilterPropertyType titleField "Task" initState).1).attrs =
      [⟨"eq", .named "String", true⟩, ⟨"neq", .named "String", true⟩,
       ⟨"gt", .named "String", true⟩, ⟨"gte", .named "String", true⟩,
       ⟨"lt", .named "String", true⟩, ⟨"lte", .named "String", true⟩,
       ⟨"in", GqlType.listOf (.named "String"), true⟩,
       ⟨"notin", .named "String", true⟩, ⟨"like", .named "String", true⟩,
       ⟨"notlike", .named "String", true⟩,
       ⟨"between", GqlType.listOf (.named "String"), true⟩,
       ⟨"notbetween", GqlType.listOf (.named "String"), true⟩,
       ⟨"null", GqlType.booleanT, true⟩] :=
  generateFilterPropertyType_arity titleField "Task" initState rfl

/-! ### C10 — the predicate-type cache key ignores the value type -/

/-- C10: the predicate-type cache key is built only from the field's name
and the group key (`filter.ts:55`), so for two field declarations with the
same name generated under the same group key, the second call returns the
first's cached type object with the state unchanged — and, when the first
call generated fresh, that object was constructed from the first
declaration's value type, even if the second declaration's differs. -/
theorem generateFilterPropertyType_cache_ignores_valueType
    (f1 f2 : FieldDef) (pn : String) (s s' : GenState) (p : PropertyFilter)
    (hname : f1.name = f2.name)
    (h1 : generateFilterPropertyType f1 pn s = (p, s')) :
    generateFilterPropertyType f2 pn s' = (p, s')
    ∧ (mapGet s.propertyTypes
        (f1.name ++ pn ++ InputMapPrefixes.PropertyFilterType) = none →
        p.attrs = opAttrsFor f1.typ) := by
  cases h : mapGet s.propertyTypes
      (f1.name ++ pn ++ InputMapPrefixes.PropertyFilterType) with
  | some p0 =>
      simp only [generateFilterPropertyType, h, Prod.mk.injEq] at h1
      obtain ⟨hp, hs⟩ := h1
      subst hp; subst hs
      constructor
      · simp only [generateFilterPropertyType, ← hname, h]
      · intro hc
        exact Option.noConfusion hc
  | none =>
      simp only [generateFilterPropertyType, h, Prod.mk.injEq] at h1
      obtain ⟨hp, hs⟩ := h1
      constructor
      · have hget : mapGet s'.propertyTypes
            (f2.name ++ pn ++ InputMapPrefixes.PropertyFilterType) = some p := by
          rw [← hname, ← hs, ← hp]
          exact mapGet_mapSet_self _ _ _
        simp only [generateFilterPropertyType, hget]
      · intro _; rw [← hp]

/-- C10 witness: `x: String` then `x: Boolean` under group `G`: the second
call returns the object built from `String`, unchanged. -/
theorem generateFilterPropertyType_cache_ignores_valueType_witness :
    generateFilterPropertyType f2x "G" sX = (pX, sX)
    ∧ pX.attrs = opAttrsFor (.named "String") :=
  ⟨(generateFilterPropertyType_cache_ignores_valueType f1x f2x "G"
      initState sX pX rfl (by decide)).1,
   (generateFilterPropertyType_cache_ignores_valueType f1x f2x "G"
      initState sX pX rfl (by decide)).2 rfl⟩

/-! ### C3 — placeholder cached before field resolution -/

/-- C3: `generateFilterInputType` stores the (still empty) class in the
process-wide `filterTypes` cache under the group key (`filter.ts:99`)
before any field of the group is resolved, so a re-entrant call for the
same group key made during field resolution takes the cache-hit branch and
returns the cached placeholder with the state untouched — no regeneration,
hence termination for self-referential groups. -/
theorem reentrant_call_returns_placeholder (env : Env)
    (classes : List EntityDecl) (s : GenState) :
    mapGet (afterPlaceholder classes s).filterTypes (filterTypeKey classes)
      = some (placeholderFor classes s)
    ∧ (placeholderFor classes s).attrs = []
    ∧ generateFilterInputType env classes (afterPlaceholder classes s)
      = Except.ok (placeholderFor classes s, afterPlaceholder classes s) :=
  ⟨mapGet_mapSet_self _ _ _, rfl,
   generateFilterInputType_hit env classes (afterPlaceholder classes s)
     (placeholderFor classes s) (mapGet_mapSet_self _ _ _)⟩

/-! ### C2 — entity-filter-type memoization and cache-group identity -/

/-- C2 counterexample: `[ab, abab]` and `[abab, ab]` are lists of the same
two entities, with distinct names, in different orders — yet their
name-concatenations coincide (`ababab`), so the second call is a cache hit
returning the identical type object rather than a distinct one. -/
theorem reversed_entity_lists_can_share_cache_group :
    entAb.name ≠ entAbab.name
    ∧ filterTypeKey [entAb, entAbab] = filterTypeKey [entAbab, entAb]
    ∧ generateFilterInputType [] [entAb, entAbab] initState
        = Except.ok (tConc, sConc)
    ∧ generateFilterInputType [] [entAbab, entAb] sConc
        = Except.ok (tConc, sConc) := by
  decide

/-- C2 (amended): the generator is memoized by the concatenation of entity
names in caller-supplied order — calling it twice with the same entity list
returns the identical type object — and two calls whose concatenated-name
cache keys differ (both generated fresh) yield distinct type objects;
lists of the same entities in different orders are distinct cache groups
only when their name concatenations differ. -/
theorem generateFilterInputType_memoization :
    (∀ (env : Env) (cs : List EntityDecl) (s : GenState)
        (t : PartialObjectType) (s' : GenState),
      generateFilterInputType env cs s = Except.ok (t, s') →
      generateFilterInputType env cs s' = Except.ok (t, s'))
    ∧ (∀ (env : Env) (cs1 cs2 : List EntityDecl) (s : GenState)
        (t1 : PartialObjectType) (s1 : GenState)
        (t2 : PartialObjectType) (s2 : GenState),
      mapGet s.filterTypes (filterTypeKey cs1) = none →
      mapGet s.filterTypes (filterTypeKey cs2) = none →
      filterTypeKey cs1 ≠ filterTypeKey cs2 →
      generateFilterInputType env cs1 s = Except.ok (t1, s1) →
      generateFilterInputType env cs2 s1 = Except.ok (t2, s2) →
      t1 ≠ t2) := by
  constructor
  · intro env cs s t s' hok
    cases h : mapGet s.filterTypes (filterTypeKey cs) with
    | some t0 =>
        have := generateFilterInputType_hit env cs s t0 h
        rw [this] at hok
        simp only [Except.ok.injEq, Prod.mk.injEq] at hok
        obtain ⟨ht, hs⟩ := hok
        subst ht; subst hs
        exact generateFilterInputType_hit env cs s t0 h
    | none =>
        obtain ⟨_, _, hft⟩ := generateFilterInputType_fresh env cs s t s' h hok
        exact generateFilterInputType_hit env cs s' t
          (by rw [hft]; exact mapGet_mapSet_self _ _ _)
  · intro env cs1 cs2 s t1 s1 t2 s2 h1 h2 hne hok1 hok2
    obtain ⟨hn1, _, hft1⟩ := generateFilterInputType_fresh env cs1 s t1 s1 h1 hok1
    have h2' : mapGet s1.filterTypes (filterTypeKey cs2) = none := by
      rw [hft1, mapGet_mapSet_ne _ _ _ _ hne, h2]
    obtain ⟨hn2, _, _⟩ := generateFilterInputType_fresh env cs2 s1 t2 s2 h2' hok2
    intro hcontra
    exact hne (by rw [← hn1, ← hn2, hcontra])

/-- C2 witness: for entities `A` and `B`, repeating `[A, B]` returns the
identical object, and `[B, A]` (distinct keys, both fresh) yields a
distinct object. -/
theorem generateFilterInputType_memoization_witness :
    generateFilterInputType [] [entA, entB] sAB = Except.ok (tAB, sAB)
    ∧ tAB ≠ tBA :=
  ⟨generateFilterInputType_memoization.1 [] [entA, entB] initState tAB sAB
     (by decide),
   generateFilterInputType_memoization.2 [] [entA, entB] [entB, entA]
     initState tAB sAB tBA sBA (by decide) (by decide) (by decide)
     (by decide) (by decide)⟩

/-! ### C4 — merging entities with a duplicate field name -/

/-- C4 counterexample: merging `[A, B]` where `A` declares `x: String` and
`B` declares `x: Boolean` yields exactly one `x` attribute, but its
predicate type carries `String` — entity `A`'s (the earlier) declaration,
not `B`'s: the second `generateFilterPropertyType` call is a cache hit on
the key `x` + group, which ignores the value type. -/
theorem merged_duplicate_field_keeps_first_type :
    (genResultAttrs (generateFilterInputType [] [entAx, entBx] initState)).map
        (fun a => a.name) = ["x"]
    ∧ (genResultAttrs (generateFilterInputType [] [entAx, entBx] initState)).map
        (fun a => a.ptype.attrs.find? (fun p => p.name == "eq"))
      = [some ⟨"eq", GqlType.named "String", true⟩]
    ∧ GqlType.named "String" ≠ GqlType.booleanT := by
  decide

/-- C4 (amended): when two entities in the merged list `[A, B]` both
declare a field named `x`, the generated entity filter type has exactly one
attribute named `x` (the later `@Field` registration overrides the earlier
per name), but that attribute's predicate type is the one constructed from
the first entity `A`'s declaration: the predicate-type cache key contains
only the field name and the group key. -/
theorem merged_duplicate_field_attrs (t1 t2 : GqlType) (n1 n2 : String)
    (h1 : t1 = GqlType.named n1) (h2 : t2 = GqlType.named n2) :
    genResultAttrs (generateFilterInputType [] [entAfield t1, entBfield t2]
        initState)
      = [⟨"x", ⟨1, "xABPropertyFilterType", opAttrsFor t1⟩, true⟩] := by
  subst h1; subst h2
  rfl

/-- C4 witness: the amended theorem instantiated at `A.x : String` and
`B.x : Int`. -/
theorem merged_duplicate_field_attrs_witness :
    genResultAttrs (generateFilterInputType []
        [entAfield (.named "String"), entBfield (.named "Int")] initState)
      = [⟨"x", ⟨1, "xABPropertyFilterType", opAttrsFor (.named "String")⟩,
          true⟩] :=
  merged_duplicate_field_attrs (.named "String") (.named "Int")
    "String" "Int" rfl rfl

/-! ### C5 — relation-valued fields produce no attribute -/

/-- Elements of `setField acc b` are `b` or come from `acc`. -/
theorem mem_setField (acc : List FilterAttr) (b a : FilterAttr)
    (h : a ∈ setField acc b) : a = b ∨ a ∈ acc := by
  induction acc with
  | nil => simp [setField] at h; exact Or.inl h
  | cons c rest ih =>
      unfold setField at h
      by_cases hc : c.name = b.name
      · simp only [hc, if_pos rfl] at h
        rcases List.mem_cons.mp h with h' | h'
        · exact Or.inl h'
        · exact Or.inr (List.mem_cons_of_mem _ h')
      · simp only [if_neg hc] at h
        rcases List.mem_cons.mp h with h' | h'
        · exact Or.inr (h' ▸ List.mem_cons_self _ _)
        · rcases ih h' with h'' | h''
          · exact Or.inl h''
          · exact Or.inr (List.mem_cons_of_mem _ h'')

/-- Every attribute produced by the field loop either was already in the
accumulator or is named after a non-relation field of the input list. -/
theorem processFields_attr_origin (env : Env) (pn : String)
    (props : List FieldDef) (s : GenState) (acc : List FilterAttr)
    (a : FilterAttr) (h : a ∈ (processFields env pn props s acc).1) :
    a ∈ acc ∨ ∃ f ∈ props, isDeclaredEntity env f.typ = false
      ∧ a.name = f.name := by
  induction props generalizing s acc with
  | nil => exact Or.inl h
  | cons f rest ih =>
      unfold processFields at h
      by_cases hrel : isDeclaredEntity env f.typ
      · simp only [hrel, if_pos rfl] at h
        rcases ih _ _ h with h' | ⟨g, hg, hng⟩
        · exact Or.inl h'
        · exact Or.inr ⟨g, List.mem_cons_of_mem _ hg, hng⟩
      · simp only [if_neg hrel] at h
        rcases ih _ _ h with h' | ⟨g, hg, hng⟩
        · rcases mem_setField _ _ _ h' with h'' | h''
          · exact Or.inr ⟨f, List.mem_cons_self _ _,
              ⟨Bool.of_not_eq_true hrel, by rw [h'']⟩⟩
          · exact Or.inl h''
        · exact Or.inr ⟨g, List.mem_cons_of_mem _ hg, hng⟩

/-- The attribute list of a fresh successful generation is the field loop's
output. -/
theorem generateFilterInputType_fresh_attrs (env : Env)
    (cs : List EntityDecl) (s : GenState) (t : PartialObjectType)
    (s' : GenState) (props : List FieldDef)
    (hfresh : mapGet s.filterTypes (filterTypeKey cs) = none)
    (hprops : resolveAllProps env cs = Except.ok props)
    (hok : generateFilterInputType env cs s = Except.ok (t, s')) :
    t.attrs = (processFields env (concatNames cs) props
      (afterPlaceholder cs s) []).1 := by
  simp only [generateFilterInputType, hfresh, hprops, Except.ok.injEq,
    Prod.mk.injEq] at hok
  obtain ⟨ht, _⟩ := hok
  rw [← ht]

/-- C5: if every resolved field named `n` has a value type that is itself a
declared entity type (relation-valued), then the generated entity filter
type has no attribute named `n` — relation-valued fields are skipped at
`filter.ts:132-148`. -/
theorem generateFilterInputType_skips_relations (env : Env)
    (cs : List EntityDecl) (s : GenState) (t : PartialObjectType)
    (s' : GenState) (props : List FieldDef) (n : String)
    (hfresh : mapGet s.filterTypes (filterTypeKey cs) = none)
    (hprops : resolveAllProps env cs = Except.ok props)
    (hrel : ∀ f ∈ props, f.name = n → isDeclaredEntity env f.typ = true)
    (hok : generateFilterInputType env cs s = Except.ok (t, s')) :
    t.attrs.all (fun a => a.name != n) = true := by
  rw [List.all_eq_true]
  intro a ha
  rw [generateFilterInputType_fresh_attrs env cs s t s' props hfresh hprops
    hok] at ha
  rcases processFields_attr_origin env (concatNames cs) props
      (afterPlaceholder cs s) [] a ha with h' | ⟨f, hf, hno, hname⟩
  · exact absurd h' (List.not_mem_nil a)
  · rw [bne_iff_ne]
    intro han
    rw [hrel f hf (by rw [← hname, han])] at hno
    exact Bool.noConfusion hno

/-- C5 witness: entity `P` with relation field `role: Role` and scalar
field `id: Int` (with `Role` a declared entity): the generated type has no
attribute named `role`. -/
theorem generateFilterInputType_skips_relations_witness :
    tP.attrs.all (fun a => a.name != "role") = true :=
  generateFilterInputType_skips_relations roleEnv [entWithRel] initState
    tP sP [⟨"role", .named "Role", none⟩, ⟨"id", .named "Int", none⟩] "role"
    rfl (by decide) (by decide) (by decide)

/-! ### C6 — uninitialized entity error -/

/-- C6: for an entity without custom filter fields whose metadata reports
no resolvable field list, entity-filter-type generation fails with the
uninitialized-entity error (`filter.ts:123-125`), whose message names the
offending entity; the generator returns the error without retrying. -/
theorem generateFilterInputType_uninitialized (env : Env) (e : EntityDecl)
    (s : GenState)
    (hfresh : mapGet s.filterTypes (filterTypeKey [e]) = none)
    (hnocustom : e.custom = none) (hnoprops : e.props = none) :
    generateFilterInputType env [e] s
      = Except.error (GenError.uninitializedEntity e.name)
    ∧ GenError.message (GenError.uninitializedEntity e.name)
      = "DTO " ++ e.name ++ " hasn\x27t been initialized yet" := by
  constructor
  · have hres : resolveAllProps env [e]
        = Except.error (GenError.uninitializedEntity e.name) := by
      simp [resolveAllProps, resolveEntityProps, hnocustom, hnoprops,
        Bind.bind, Except.bind]
    simp [generateFilterInputType, hfresh, hres]
  · rfl

/-- C6 witness: the uninitialized entity `Task` on empty caches. -/
theorem generateFilterInputType_uninitialized_witness :
    generateFilterInputType [] [uninitEnt] initState
      = Except.error (GenError.uninitializedEntity "Task")
    ∧ GenError.message (GenError.uninitializedEntity "Task")
      = "DTO Task hasn\x27t been initialized yet" :=
  generateFilterInputType_uninitialized [] uninitEnt initState rfl rfl rfl

/-! ### C7 — the root filter type wrapper -/

/-- C7: the root filter type for an entity group is cached under the key
`"where" + concatenated entity names + "Input"` in the `filterFullTypes`
cache — separate from the `filterTypes` cache, whose key is the
concatenation + "PropertyFilterType" — and (when built fresh) exposes every
field-predicate attribute of the entity filter type plus exactly three
additions: an optional `and` list of the entity filter type, an optional
`or` list of the entity filter type, and the `_name_` discriminator whose
default value is the fixed reserved sentinel; a repeated call returns the
identical cached object. -/
theorem getFilterFullInputType_spec (env : Env) (cs : List EntityDecl)
    (s : GenState) (fit : PartialObjectType) (s1 : GenState)
    (full : EntityWhereInput) (s2 : GenState)
    (hfresh : mapGet s.filterFullTypes (fullTypeKey cs) = none)
    (hgen : generateFilterInputType env cs s = Except.ok (fit, s1))
    (hok : getFilterFullInputType env cs s = Except.ok (full, s2)) :
    full.name = "where" ++ concatNames cs ++ "Input"
    ∧ full.attrs = fit.attrs.map
        (fun a => ⟨a.name, WhereFieldType.predicate a.ptype, a.nullable⟩)
        ++ [⟨"_name_", WhereFieldType.stringWithDefault
               FILTER_DECORATOR_NAME_METADATA_KEY, false⟩,
            ⟨"and", WhereFieldType.listOfFilter fit, true⟩,
            ⟨"or", WhereFieldType.listOfFilter fit, true⟩]
    ∧ mapGet s2.filterFullTypes (fullTypeKey cs) = some full
    ∧ mapGet s2.filterTypes (filterTypeKey cs)
        = mapGet s1.filterTypes (filterTypeKey cs)
    ∧ getFilterFullInputType env cs s2 = Except.ok (full, s2) := by
  simp only [getFilterFullInputType, hfresh, hgen, Except.ok.injEq,
    Prod.mk.injEq] at hok
  obtain ⟨hfull, hs⟩ := hok
  subst hfull
  refine ⟨rfl, rfl, ?_, ?_, ?_⟩
  · rw [← hs]; exact mapGet_mapSet_self _ _ _
  · rw [← hs]
  · have hget : mapGet s2.filterFullTypes (fullTypeKey cs)
        = some ⟨s1.nextId, fullTypeKey cs, whereAttrsFor fit⟩ := by
      rw [← hs]; exact mapGet_mapSet_self _ _ _
    simp only [getFilterFullInputType, hget]

/-- C7 witness: the wrapper theorem at group `[E]` on empty caches. -/
theorem getFilterFullInputType_spec_witness :
    ftE.name = "where" ++ concatNames [emptyEnt] ++ "Input"
    ∧ ftE.attrs = fitE.attrs.map
        (fun a => ⟨a.name, WhereFieldType.predicate a.ptype, a.nullable⟩)
        ++ [⟨"_name_", WhereFieldType.stringWithDefault
               FILTER_DECORATOR_NAME_METADATA_KEY, false⟩,
            ⟨"and", WhereFieldType.listOfFilter fitE, true⟩,
            ⟨"or", WhereFieldType.listOfFilter fitE, true⟩]
    ∧ mapGet s2E.filterFullTypes (fullTypeKey [emptyEnt]) = some ftE
    ∧ mapGet s2E.filterTypes (filterTypeKey [emptyEnt])
        = mapGet s1E.filterTypes (filterTypeKey [emptyEnt])
    ∧ getFilterFullInputType [] [emptyEnt] s2E = Except.ok (ftE, s2E) :=
  getFilterFullInputType_spec [] [emptyEnt] initState fitE s1E ftE s2E rfl
    (by decide) (by decide)

/-! ### C8 — the registration entry point -/

/-- The custom-field reduce of `Filter` (`filter.ts:207-219`) collects, in
entity order, the custom filter fields of every entity that declares
them. -/
theorem customFields_foldl_eq (l : List EntityDecl)
    (init : List CustomFilterFieldDefinition) :
    l.foldl (fun acc x =>
      match x.custom with
      | some fields =>
          acc ++ fields.map (fun f =>
            ({ name := f.name, typ := f.typ, sqlExp := f.sqlExp } :
              CustomFilterFieldDefinition))
      | none => acc) init
    = init ++ (l.map (fun x => (x.custom.getD []).map (fun f =>
        ({ name := f.name, typ := f.typ, sqlExp := f.sqlExp } :
          CustomFilterFieldDefinition)))).flatten := by
  induction l generalizing init with
  | nil => simp
  | cons x rest ih =>
      cases hx : x.custom with
      | none => simp [List.foldl_cons, hx, ih]
      | some fields => simp [List.foldl_cons, hx, ih]

/-- C8: whenever the root filter type resolves, the registration entry
point registers it as a nullable parameter with default value the empty
object, under the argument name `"where"` unless a non-empty
`options.name` overrides it, and attaches the ordered custom-expression
field metadata (name, value type, sql expression) collected over all
supplied entities. -/
theorem Filter_registration (env : Env) (ref : EntityRef)
    (opts : Option IFilterDecoratorParams) (s : GenState)
    (ft : EntityWhereInput) (s1 : GenState) (reg : ParamRegistration)
    (s1' : GenState)
    (h : getFilterFullInputType env (entityRefToList ref) s
      = Except.ok (ft, s1))
    (hreg : Filter env ref opts s = Except.ok (reg, s1')) :
    s1' = s1
    ∧ reg.args.argType = ft
    ∧ reg.args.nullable = true
    ∧ reg.args.defaultValueEmptyObject = true
    ∧ (opts.bind (fun o => o.name) = none → reg.args.name = "where")
    ∧ (∀ n : String, opts.bind (fun o => o.name) = some n → n ≠ "" →
        reg.args.name = n)
    ∧ reg.customFieldsMeta
      = ((entityRefToList ref).map (fun x => (x.custom.getD []).map (fun f =>
          ({ name := f.name, typ := f.typ, sqlExp := f.sqlExp } :
            CustomFilterFieldDefinition)))).flatten := by
  simp only [Filter, h, Except.ok.injEq, Prod.mk.injEq] at hreg
  obtain ⟨hr, hs⟩ := hreg
  subst hr
  refine ⟨hs.symm, rfl, rfl, rfl, ?_, ?_, ?_⟩
  · intro hn
    cases opts with
    | none => rfl
    | some o =>
        cases ho : o.name with
        | none => simp [ho]
        | some n => simp [ho] at hn
  · intro n hn hne
    cases opts with
    | none => simp at hn
    | some o =>
        cases ho : o.name with
        | none => simp [ho] at hn
        | some n' =>
            simp only [Option.bind, ho, Option.some.injEq] at hn
            subst hn
            simp [ho, if_neg hne]
  · exact customFields_foldl_eq (entityRefToList ref) []

/-- C8 witness: registering the filter for entity `E` with
`options.name = "filter"` on empty caches. -/
theorem Filter_registration_witness :
    s2E = s2E
    ∧ (⟨[], ⟨"filter", true, true, ftE⟩⟩ : ParamRegistration).args.argType = ftE
    ∧ (⟨[], ⟨"filter", true, true, ftE⟩⟩ : ParamRegistration).args.nullable = true
    ∧ (⟨[], ⟨"filter", true, true, ftE⟩⟩ :
        ParamRegistration).args.defaultValueEmptyObject = true
    ∧ (⟨[], ⟨"filter", true, true, ftE⟩⟩ : ParamRegistration).args.name
        = "filter" :=
  have h := Filter_registration [] (EntityRef.single emptyEnt)
    (some ⟨some "filter"⟩) initState ftE s2E ⟨[], ⟨"filter", true, true, ftE⟩⟩
    s2E (by decide) (by decide)
  ⟨rfl, h.2.1, h.2.2.1, h.2.2.2.1, h.2.2.2.2.2.1 "filter" rfl (by decide)⟩

/-! ### C9 — custom-expression fields -/

/-- C9 counterexample: the predicate type generated for the
custom-expression field `fullName` has thirteen operation attributes, not
twelve: `OperationQuery` has thirteen members (`eq`, `neq`, `gt`, `gte`,
`lt`, `lte`, `in`, `notin`, `like`, `notlike`, `between`, `notbetween`,
`null`). -/
theorem custom_field_has_thirteen_operations :
    (firstPredicateAttrs
        (generateFilterInputType [] [userEntity] initState)).map List.length
      = some 13
    ∧ (13 : Nat) ≠ 12 := by
  decide

/-- C9 (amended): the custom-expression field
`{name: "fullName", expression: "concat(fname,' ',lname)"}` produces a
field-predicate type with the same thirteen operation attributes (same
names, value types and nullability) as a column-backed string field, and
its expression string appears in the custom-field metadata recorded for
the query-execution layer. -/
theorem custom_expression_field_predicate :
    firstPredicateAttrs (generateFilterInputType [] [userEntity] initState)
      = firstPredicateAttrs
          (generateFilterInputType [] [titleEntity] initState)
    ∧ (firstPredicateAttrs
        (generateFilterInputType [] [userEntity] initState)).map List.length
      = some 13
    ∧ registeredSqlExps
        (Filter [] (EntityRef.single userEntity) none initState)
      = ["concat(fname,\x27 \x27,lname)"] := by
  decide

end GraphqlTools
